import Mathlib

/-!
Verification of the git-client wrapper layer: a shallow embedding of the
configuration store, SSH key lifecycle, branch operations and history/diff
operations, with theorems about the behaviour the specification describes.

External collaborators (the git engine, the filesystem, the crypto library)
are modelled as oracles recorded in each component's state; the wrapper
logic itself is translated line by line from the source.
-/

/-- The character `.` separating configuration key segments. -/
def dotChar : Char := Char.ofNat 46

/-- The newline character used by the diff renderer. -/
def newlineChar : Char := Char.ofNat 10

/-- Splitting a character list on a separator, keeping empty segments, as
Python's `str.split` does for a one-character separator. -/
def splitCharAux (sep : Char) : List Char → List (List Char)
  | [] => [[]]
  | c :: rest =>
    let r := splitCharAux sep rest
    if c == sep then [] :: r
    else
      match r with
      | h :: t => (c :: h) :: t
      | [] => [[c]]

/-- Python `s.split(sep)` for a one-character separator. -/
def pySplitChar (sep : Char) (s : String) : List String :=
  (splitCharAux sep s.data).map String.mk

/-- Whether a character list starts with another. -/
def startsWithChars : List Char → List Char → Bool
  | _, [] => true
  | [], _ :: _ => false
  | a :: as, b :: bs => a == b && startsWithChars as bs

/-- Whether a character list contains another as a contiguous run. -/
def containsCharsAux (sub : List Char) : List Char → Bool
  | [] => startsWithChars [] sub
  | c :: t => startsWithChars (c :: t) sub || containsCharsAux sub t

/-- Python membership test `sub in s` on strings: true iff `sub` is a
substring of `s` (the empty string is contained in everything). -/
def pyIn (sub s : String) : Bool :=
  containsCharsAux sub.data s.data

/-- Python string slicing `s[:n]`. -/
def strTake (s : String) (n : Nat) : String :=
  String.mk (s.data.take n)

/-- Python `s.startswith(p)`. -/
def pyStartsWith (s p : String) : Bool :=
  startsWithChars s.data p.data

/-- Python truthiness of an optional string argument: `None` and the empty
string are falsy. -/
def optTruthy : Option String → Bool
  | none => false
  | some s => !(s == "")

/-- Keyword argument passed only when truthy (mirrors `if branch:
kwargs[...] = branch`). -/
def pyOpt (o : Option String) : Option String :=
  if optTruthy o then o else none

/-- Python truthiness of an optional integer argument: `None` and `0` are
falsy. -/
def optTruthyInt : Option Int → Bool
  | none => false
  | some n => !(n == 0)

/-! ## Configuration store (`git_client/utils/config_manager.py`)

Configuration values are the JSON values the store holds: scalars and
string-keyed mappings.  Python dictionaries are modelled as ordered
association lists with unique keys (the only dictionaries reachable through
the store's API). -/

/-- A JSON-shaped configuration value. -/
inductive CVal where
  | str (s : String)
  | bool (b : Bool)
  | int (n : Int)
  | null
  | dict (entries : List (String × CVal))

/-- Python exceptions that the configuration store can raise. -/
inductive PyExc where
  | typeError
  | indexError

/-- Dictionary lookup `d[k]` / membership, first matching key. -/
def dictGet : List (String × CVal) → String → Option CVal
  | [], _ => none
  | (a, b) :: t, k => if a == k then some b else dictGet t k

/-- Dictionary membership `k in d`. -/
def dictHas (es : List (String × CVal)) (k : String) : Bool :=
  (dictGet es k).isSome

/-- Dictionary update `d[k] = v`: replace in place, else append. -/
def dictSet : List (String × CVal) → String → CVal → List (String × CVal)
  | [], k, v => [(k, v)]
  | (a, b) :: t, k, v =>
    if a == k then (k, v) :: t else (a, b) :: dictSet t k v

/-- Dictionary deletion `del d[k]` of the matching key. -/
def dictDel : List (String × CVal) → String → List (String × CVal)
  | [], _ => []
  | (a, b) :: t, k => if a == k then t else (a, b) :: dictDel t k

/-- The in-memory manager: the config file path and the loaded document. -/
structure ConfigManager where
  configFile : String
  config : CVal

/-- The default configuration document (`_default_config`), parametrised by
the user's home directory. -/
def defaultConfig (home : String) : CVal :=
  .dict
    [("user", .dict [("name", .str ""), ("email", .str "")]),
     ("ssh", .dict [("key_path", .str (home ++ "/.ssh/id_rsa"))]),
     ("defaults", .dict [("remote", .str "origin"), ("branch", .str "main")]),
     ("preferences", .dict
        [("auto_add_ssh_key", .bool true), ("verbose", .bool false),
         ("color", .bool true)])]

/-- Persisting the document (`save_config`); file output is modelled as
succeeding. -/
def ConfigManager.save_config (cm : ConfigManager) : Bool × String :=
  (true, "Configuration saved to " ++ cm.configFile)

/-- The lookup walk of `ConfigManager.get`: descend while the current value
is a mapping containing the segment, otherwise return the default. -/
def getWalk : CVal → List String → CVal → CVal
  | c, [], _ => c
  | .dict es, k :: rest, d =>
    match dictGet es k with
    | some v => getWalk v rest d
    | none => d
  | _, _ :: _, d => d

/-- Configuration lookup (`ConfigManager.get`), with an explicit default
(`CVal.null` models Python's `None`). -/
def ConfigManager.get (cm : ConfigManager) (key : String) (default : CVal) : CVal :=
  getWalk cm.config (pySplitChar dotChar key) default

/-- The navigation-and-assign loop of `ConfigManager.set`.  Intermediate
missing segments are created as empty mappings; an intermediate or final
value that is not a mapping makes the Python code raise `TypeError`
(membership/indexing/assignment on a non-mapping).  The returned value is
the document after the mutations performed before any raise. -/
def setWalk : CVal → List String → CVal → CVal × Option PyExc
  | c, [], _ => (c, some .indexError)
  | .dict es, [k], v => (.dict (dictSet es k v), none)
  | c, [_], _ => (c, some .typeError)
  | .dict es, k :: rest, v =>
    let child := (dictGet es k).getD (.dict [])
    let out := setWalk child rest v
    (.dict (dictSet es k out.1), out.2)
  | c, _ :: _, _ => (c, some .typeError)

/-- Configuration update (`ConfigManager.set`): walk/create intermediate
mappings, assign the leaf, then persist.  The `Except.error` result records
the exception the Python code lets escape. -/
def ConfigManager.set (cm : ConfigManager) (key : String) (v : CVal) :
    ConfigManager × Except PyExc (Bool × String) :=
  match setWalk cm.config (pySplitChar dotChar key) v with
  | (c2, none) =>
    let cm2 : ConfigManager := { cm with config := c2 }
    (cm2, .ok cm2.save_config)
  | (c2, some e) => ({ cm with config := c2 }, .error e)

/-- Result of the deletion walk: either the document with a success flag
(`removed = false` is the "Key not found" return), or an escaped
exception. -/
inductive DelStep where
  | done (c : CVal) (removed : Bool)
  | raise (c : CVal) (e : PyExc)

/-- The navigation-and-delete loop of `ConfigManager.delete`.  Membership
tests on strings are Python substring tests; membership on other
non-mapping scalars and item deletion on strings raise `TypeError`. -/
def delWalk : CVal → List String → DelStep
  | c, [] => .raise c .indexError
  | .dict es, [k] =>
    if dictHas es k then .done (.dict (dictDel es k)) true
    else .done (.dict es) false
  | .str s, [k] =>
    if pyIn k s then .raise (.str s) .typeError
    else .done (.str s) false
  | c, [_] => .raise c .typeError
  | .dict es, k :: rest =>
    match dictGet es k with
    | some child =>
      match delWalk child rest with
      | .done c2 r => .done (.dict (dictSet es k c2)) r
      | .raise c2 e => .raise (.dict (dictSet es k c2)) e
    | none => .done (.dict es) false
  | .str s, k :: _ =>
    if pyIn k s then .raise (.str s) .typeError
    else .done (.str s) false
  | c, _ :: _ => .raise c .typeError

/-- Configuration deletion (`ConfigManager.delete`). -/
def ConfigManager.delete (cm : ConfigManager) (key : String) :
    ConfigManager × Except PyExc (Bool × String) :=
  match delWalk cm.config (pySplitChar dotChar key) with
  | .done c2 true =>
    let cm2 : ConfigManager := { cm with config := c2 }
    (cm2, .ok cm2.save_config)
  | .done c2 false =>
    ({ cm with config := c2 }, .ok (false, "Key \x27" ++ key ++ "\x27 not found"))
  | .raise c2 e => ({ cm with config := c2 }, .error e)

/-- The set-then-get round trip of the spec, propagating any exception that
`set` lets escape. -/
def setThenGet (cm : ConfigManager) (k : String) (v : CVal) : Except PyExc CVal :=
  match ConfigManager.set cm k v with
  | (cm2, .ok _) => .ok (ConfigManager.get cm2 k .null)
  | (_, .error e) => .error e

/-- A manager holding the default document (home directory `/root`). -/
def cmDefault : ConfigManager :=
  ⟨"/root/.gitc/config.json", defaultConfig "/root"⟩

/-! ## SSH key lifecycle (`git_client/utils/ssh_manager.py`)

The filesystem around the key pair is the state: contents and permission
bits of the private and public key files, plus whether the `.ssh` directory
exists.  Key generation itself (the crypto library call) is an oracle
providing the serialized key material; generation and file writes are
modelled as succeeding. -/

/-- The key-file portion of the filesystem seen by `SSHKeyManager`. -/
structure SSHState where
  privPath : String
  privContent : Option String
  privMode : Option Nat
  pubContent : Option String
  pubMode : Option Nat
  sshDirExists : Bool

/-- The serialized RSA key pair the crypto library would produce. -/
structure GeneratedKey where
  privatePem : String
  publicSsh : String

/-- Key-pair existence check (`check_ssh_key_exists`): both files must be
present. -/
def SSHKeyManager.check_ssh_key_exists (st : SSHState) : Bool :=
  st.privContent.isSome && st.pubContent.isSome

/-- Key generation (`generate_ssh_key`): refuse if a pair exists and
`overwrite` is false; otherwise create the directory, write the private key
with mode 0600 and the public key (suffixed with a space and the email)
with mode 0644. -/
def SSHKeyManager.generate_ssh_key (st : SSHState) (kg : GeneratedKey)
    (email : String) (overwrite : Bool) : SSHState × Bool × String :=
  if SSHKeyManager.check_ssh_key_exists st && !overwrite then
    (st, false, "SSH key already exists at " ++ st.privPath)
  else
    let st1 : SSHState := { st with sshDirExists := true }
    let st2 : SSHState :=
      { st1 with privContent := some kg.privatePem, privMode := some 0o600 }
    let st3 : SSHState :=
      { st2 with pubContent := some (kg.publicSsh ++ " " ++ email),
                 pubMode := some 0o644 }
    (st3, true, "SSH key generated successfully at " ++ st.privPath)

/-! ## Branch operations (`git_client/core/branch_manager.py`)

The repository handle is a state value: validity, the local branches with
their tip commits, the active branch, the working tree, and oracles for the
engine calls (`merge_base`, `merge_tree`/`commit`, `checkout`) together
with the exceptions they may raise. -/

/-- A local branch or a remote-tracking ref: its name and tip commit id. -/
structure Branch where
  name : String
  commit : String

/-- A remote together with its remote-tracking refs. -/
structure RemoteInfo where
  name : String
  refs : List Branch

/-- Diagnostic data of a `GitCommandError`: its rendered text and the
stderr it carries. -/
structure GitErrInfo where
  text : String
  stderr : String

/-- The branch-manager repository handle and its engine oracles. -/
structure BMRepo where
  valid : Bool
  branches : List Branch
  activeBranch : String
  activeBranchErr : Option String
  headCommit : String
  workingTree : String
  remotes : List RemoteInfo
  checkoutErr : Option String
  mergeBase : String → String → List String
  mergeTreeErr : String → String → Option GitErrInfo
  freshCommit : String
  lastCommitMessage : Option String

/-- Moving a branch tip to a new commit (the effect of `index.commit` on
the checked-out branch ref). -/
def updateBranchTip : List Branch → String → String → List Branch
  | [], _, _ => []
  | b :: t, n, c => if b.name == n then ⟨b.name, c⟩ :: t else b :: updateBranchTip t n c

/-- The checkout step of `switch_branch` (`heads[name].checkout()`):
either the engine raises, or the active branch, HEAD and working tree move
to the named branch's tip. -/
def checkoutBranch (st : BMRepo) (name : String) : BMRepo × Bool × String :=
  match st.checkoutErr with
  | some e => (st, false, "Git error: " ++ e)
  | none =>
    let tip := ((st.branches.find? (fun b => b.name == name)).getD ⟨name, st.headCommit⟩).commit
    ({ st with activeBranch := name, headCommit := tip, workingTree := tip },
     true, "Switched to branch \x27" ++ name ++ "\x27")

/-- Branch switching (`BranchManager.switch_branch`). -/
def BranchManager.switch_branch (st : BMRepo) (name : String) (create : Bool) :
    BMRepo × Bool × String :=
  if !st.valid then (st, false, "Not a git repository")
  else
    let branch_exists := (st.branches.find? (fun b => b.name == name)).isSome
    if !branch_exists && create then
      checkoutBranch { st with branches := st.branches ++ [⟨name, st.headCommit⟩] } name
    else if !branch_exists then
      (st, false, "Branch \x27" ++ name ++ "\x27 does not exist. Use --create to create it")
    else
      checkoutBranch st name

/-- Branch merging (`BranchManager.merge_branch`): existence check, merge
base, the already-up-to-date shortcut, then the engine's tree merge and a
two-parent commit, classifying a conflict distinctly. -/
def BranchManager.merge_branch (st : BMRepo) (name : String) (no_ff : Bool)
    (commit_message : Option String) : BMRepo × Bool × String :=
  if !st.valid then (st, false, "Not a git repository")
  else
    match st.branches.find? (fun b => b.name == name) with
    | none => (st, false, "Branch \x27" ++ name ++ "\x27 does not exist")
    | some target =>
      match st.activeBranchErr with
      | some e => (st, false, "Error merging branch: " ++ e)
      | none =>
        let current := st.activeBranch
        let base := st.mergeBase st.headCommit target.commit
        if base.isEmpty then (st, false, "No common ancestor found")
        else if st.headCommit == target.commit then (st, true, "Already up to date")
        else
          let mergeMsg :=
            commit_message.getD ("Merge branch \x27" ++ name ++ "\x27 into " ++ current)
          match st.mergeTreeErr target.commit (base.headD "") with
          | some g =>
            if pyIn "conflict" g.text.toLower then
              (st, false, "Merge conflict! Please resolve conflicts and commit manually")
            else (st, false, "Git merge error: " ++ g.stderr)
          | none =>
            ({ st with headCommit := st.freshCommit,
                       branches := updateBranchTip st.branches current st.freshCommit,
                       lastCommitMessage := some mergeMsg },
             true, "Successfully merged \x27" ++ name ++ "\x27 into \x27" ++ current ++ "\x27")

/-! ## History and diff operations (`git_client/core/history_viewer.py`)

The handle carries the engine's observable results: the three index diffs,
commit resolution and commit-pair diffs, the raw blame chunks, the tags,
and the commit iterator, each able to raise where the engine can. -/

/-- One entry of an engine diff index: the two header paths and the decoded
patch text (empty models an absent patch). -/
structure DiffItem where
  a_path : String
  b_path : String
  diffText : String

/-- Commit metadata as the engine exposes it. -/
structure CommitData where
  hexsha : String
  authorName : String
  authorEmail : String
  committedDate : Int
  message : String
  parents : List String

/-- Tag metadata: name, target commit, annotation message (empty when
lightweight). -/
structure TagData where
  name : String
  commitSha : String
  message : String

/-- An exception escaping an engine call: a `GitCommandError` carrying
stderr, or any other exception rendered as text. -/
inductive GitExc where
  | cmd (stderr : String)
  | other (msg : String)

/-- The history-viewer repository handle and its engine oracles.
`indexVsEmptyTree` is the diff of the index against the empty tree (the
staged changes when no HEAD exists); the wrapper never computes it, it is
recorded to state what the specification asks of the `cached` mode. -/
structure HVRepo where
  valid : Bool
  headValid : Bool
  indexVsHead : List DiffItem
  indexVsWorking : List DiffItem
  indexVsEmptyTree : List DiffItem
  resolveCommit : String → Except String String
  commitVsCommit : String → String → List DiffItem
  commitVsWorking : String → List DiffItem
  iterCommits : Nat → Option String → Option String → Option String →
    Except GitExc (List CommitData)
  blameChunks : String → Except GitExc (List (CommitData × List String))
  tags : List TagData
  tagsErr : Option String
  fmtDateTime : Int → String
  fmtDate : Int → String

/-- A log payload element: a commit descriptor or the error descriptor
(`{"error": msg}`) carried in failure payloads. -/
inductive LogEntry where
  | ok (hash full_hash author date message : String) (parents : List String)
  | err (msg : String)

/-- Commit history (`HistoryViewer.log`). -/
def HistoryViewer.log (st : HVRepo) (max_count : Nat)
    (branch author since : Option String) : Bool × List LogEntry :=
  if !st.valid then (false, [.err "Not a git repository"])
  else
    match st.iterCommits max_count (pyOpt branch) (pyOpt author) (pyOpt since) with
    | .error (.cmd e) => (false, [.err ("Git log error: " ++ e)])
    | .error (.other e) => (false, [.err ("Error getting log: " ++ e)])
    | .ok cs =>
      (true, cs.map (fun c => .ok (strTake c.hexsha 7) c.hexsha
        (c.authorName ++ " <" ++ c.authorEmail ++ ">")
        (st.fmtDateTime c.committedDate) c.message.trim
        (c.parents.map (fun p => strTake p 7))))

/-- Selection of the diff index for `HistoryViewer.diff`: the `cached`
flag wins, then both commits, then one commit, else index vs working
tree.  An error is the text of the exception `repo.commit` raises on a bad
revision. -/
def computeItems (st : HVRepo) (c1 c2 : Option String) (cached : Bool) :
    Except String (List DiffItem) :=
  if cached then
    .ok (if st.headValid then st.indexVsHead else st.indexVsWorking)
  else if optTruthy c1 && optTruthy c2 then
    match st.resolveCommit (c1.getD "") with
    | .error e => .error e
    | .ok o1 =>
      match st.resolveCommit (c2.getD "") with
      | .error e => .error e
      | .ok o2 => .ok (st.commitVsCommit o1 o2)
  else if optTruthy c1 then
    match st.resolveCommit (c1.getD "") with
    | .error e => .error e
    | .ok o1 => .ok (st.commitVsWorking o1)
  else .ok st.indexVsWorking

/-- Rendering of one diff item: the `--- a/` and `+++ b/` headers then the
patch text when present. -/
def renderDiffItem (d : DiffItem) : String :=
  "\n--- a/" ++ d.a_path ++ "\n+++ b/" ++ d.b_path ++ "\n" ++
    (if d.diffText == "" then "" else d.diffText)

/-- Accumulation of the rendered diff text over the diff index. -/
def renderItems (l : List DiffItem) : String :=
  l.foldl (fun acc d => acc ++ renderDiffItem d) ""

/-- The line filter of `HistoryViewer.diff`: a header line turns inclusion
on or off by a substring match of the file argument, and every line is kept
while inclusion is on. -/
def filterLines (f : String) : List String → Bool → List String
  | [], _ => []
  | line :: rest, inc =>
    let inc2 :=
      if pyStartsWith line "---" || pyStartsWith line "+++" then pyIn f line else inc
    if inc2 then line :: filterLines f rest inc2 else filterLines f rest inc2

/-- The optional file filter: applied only when a truthy file argument and
a nonempty text are present. -/
def applyFileFilter (fp : Option String) (text : String) : String :=
  if optTruthy fp && !(text == "") then
    String.intercalate "\n" (filterLines (fp.getD "") (pySplitChar newlineChar text) false)
  else text

/-- Diff rendering (`HistoryViewer.diff`): select the mode, render, filter,
and replace an empty result with the sentinel. -/
def HistoryViewer.diff (st : HVRepo) (c1 c2 : Option String) (cached : Bool)
    (fp : Option String) : Bool × String :=
  if !st.valid then (false, "Not a git repository")
  else
    match computeItems st c1 c2 cached with
    | .error e => (false, "Error getting diff: " ++ e)
    | .ok items =>
      let t := applyFileFilter fp (renderItems items)
      if t == "" then (true, "No differences found") else (true, t)

/-- A blame payload element: one line's attribution or the error
descriptor. -/
inductive BlameOut where
  | entry (line_number : Nat) (commit author date content : String)
  | err (msg : String)

/-- One attribution entry built from a blame chunk line. -/
def mkBlameEntry (st : HVRepo) (c : CommitData) (i : Nat) (line : String) : BlameOut :=
  .entry i (strTake c.hexsha 7) c.authorName (st.fmtDate c.committedDate) line

/-- The inner loop of `HistoryViewer.blame` over one chunk's lines:
`enumerate(lines, 1)` with `continue` below `line_start` and `break` above
`line_end` (a missing or zero bound is falsy and ignored). -/
def chunkGo (st : HVRepo) (c : CommitData) (ls le : Option Int) :
    Nat → List String → List BlameOut
  | _, [] => []
  | i, line :: rest =>
    if optTruthyInt ls && decide ((i : Int) < ls.getD 0) then
      chunkGo st c ls le (i + 1) rest
    else if optTruthyInt le && decide (le.getD 0 < (i : Int)) then []
    else mkBlameEntry st c i line :: chunkGo st c ls le (i + 1) rest

/-- Line attribution (`HistoryViewer.blame`): for each `(commit, lines)`
chunk the engine returns, emit the chunk's surviving lines. -/
def HistoryViewer.blame (st : HVRepo) (file : String) (ls le : Option Int) :
    Bool × List BlameOut :=
  if !st.valid then (false, [.err "Not a git repository"])
  else
    match st.blameChunks file with
    | .error (.cmd e) => (false, [.err ("Git blame error: " ++ e)])
    | .error (.other e) => (false, [.err ("Error getting blame: " ++ e)])
    | .ok chunks => (true, (chunks.map (fun p => chunkGo st p.1 ls le 1 p.2)).flatten)

/-- A tag payload element: one tag or the error descriptor. -/
inductive TagEntry where
  | ok (name commit message : String)
  | err (msg : String)

/-- Tag listing (`HistoryViewer.get_tags`). -/
def HistoryViewer.get_tags (st : HVRepo) : Bool × List TagEntry :=
  if !st.valid then (false, [.err "Not a git repository"])
  else
    match st.tagsErr with
    | some e => (false, [.err ("Error getting tags: " ++ e)])
    | none => (true, st.tags.map (fun t => .ok t.name (strTake t.commitSha 7) t.message))

/-- A branch-listing payload element: one branch descriptor or the error
descriptor. -/
inductive BranchEntry where
  | ok (name type : String) (current : Bool) (commit : String)
  | err (msg : String)

/-- Branch listing (`BranchManager.list_branches`): local branches flagged
against the active branch, then remote-tracking refs when requested. -/
def BranchManager.list_branches (st : BMRepo) (all_branches : Bool) :
    Bool × List BranchEntry :=
  if !st.valid then (false, [.err "Not a git repository"])
  else
    match st.activeBranchErr with
    | some e => (false, [.err ("Error listing branches: " ++ e)])
    | none =>
      let current := st.activeBranch
      let locals := st.branches.map
        (fun b => BranchEntry.ok b.name "local" (b.name == current) (strTake b.commit 7))
      let rems :=
        if all_branches then
          (st.remotes.map (fun r => r.refs.map
            (fun rf => BranchEntry.ok rf.name "remote" false (strTake rf.commit 7)))).flatten
        else []
      (true, locals ++ rems)

/-! ## Core operations (`git_client/core/git_operations.py`), remote listing -/

/-- A configured remote: its name and URL list. -/
structure RemoteData where
  name : String
  urls : List String

/-- The git-operations repository handle, reduced to what `list_remotes`
reads. -/
structure GORepo where
  valid : Bool
  remotes : List RemoteData
  remotesErr : Option String

/-- A remote-listing payload element: one remote descriptor or the error
descriptor. -/
inductive RemoteEntry where
  | ok (name url : String)
  | err (msg : String)

/-- Remote listing (`GitOperations.list_remotes`): a remote with no URL
reports the placeholder. -/
def GitOperations.list_remotes (st : GORepo) : Bool × List RemoteEntry :=
  if !st.valid then (false, [.err "Not a git repository"])
  else
    match st.remotesErr with
    | some e => (false, [.err ("Error listing remotes: " ++ e)])
    | none =>
      (true, st.remotes.map (fun r => .ok r.name (match r.urls with
        | [] => "No URL"
        | u :: _ => u)))

/-! ## Concrete states used to instantiate the theorems -/

/-- A history-viewer handle whose path is not a repository. -/
def hvInvalid : HVRepo :=
  { valid := false, headValid := false, indexVsHead := [], indexVsWorking := [],
    indexVsEmptyTree := [], resolveCommit := fun _ => .error "bad revision",
    commitVsCommit := fun _ _ => [], commitVsWorking := fun _ => [],
    iterCommits := fun _ _ _ _ => .ok [], blameChunks := fun _ => .ok [],
    tags := [], tagsErr := none, fmtDateTime := fun _ => "", fmtDate := fun _ => "" }

/-- A branch-manager handle whose path is not a repository. -/
def bmInvalid : BMRepo :=
  { valid := false, branches := [], activeBranch := "", activeBranchErr := none,
    headCommit := "", workingTree := "", remotes := [], checkoutErr := none,
    mergeBase := fun _ _ => [], mergeTreeErr := fun _ _ => none,
    freshCommit := "", lastCommitMessage := none }

/-- A git-operations handle whose path is not a repository. -/
def goInvalid : GORepo :=
  { valid := false, remotes := [], remotesErr := none }

/-- A repository where `feature` was merged already: its tip equals HEAD. -/
def bmUpToDate : BMRepo :=
  { valid := true,
    branches := [⟨"main", "aaaaaaa1111"⟩, ⟨"feature", "aaaaaaa1111"⟩],
    activeBranch := "main", activeBranchErr := none,
    headCommit := "aaaaaaa1111", workingTree := "aaaaaaa1111",
    remotes := [], checkoutErr := none,
    mergeBase := fun _ _ => ["bbbbbbb2222"],
    mergeTreeErr := fun _ _ => none,
    freshCommit := "ccccccc3333", lastCommitMessage := none }

/-- A repository with only `main`, used to switch to a missing branch. -/
def bmOnlyMain : BMRepo :=
  { valid := true, branches := [⟨"main", "aaaaaaa1111"⟩],
    activeBranch := "main", activeBranchErr := none,
    headCommit := "aaaaaaa1111", workingTree := "aaaaaaa1111",
    remotes := [], checkoutErr := none,
    mergeBase := fun _ _ => [], mergeTreeErr := fun _ _ => none,
    freshCommit := "ccccccc3333", lastCommitMessage := none }

/-- A repository with no commits yet (HEAD invalid) whose index holds one
staged file and whose working tree matches the index. -/
def hvNoHead : HVRepo :=
  { valid := true, headValid := false, indexVsHead := [], indexVsWorking := [],
    indexVsEmptyTree := [⟨"file.txt", "file.txt", "+hello\n"⟩],
    resolveCommit := fun _ => .error "bad revision",
    commitVsCommit := fun _ _ => [], commitVsWorking := fun _ => [],
    iterCommits := fun _ _ _ _ => .ok [], blameChunks := fun _ => .ok [],
    tags := [], tagsErr := none, fmtDateTime := fun _ => "", fmtDate := fun _ => "" }

/-- A clean valid repository: no unstaged changes. -/
def hvClean : HVRepo :=
  { valid := true, headValid := true, indexVsHead := [], indexVsWorking := [],
    indexVsEmptyTree := [], resolveCommit := fun _ => .error "bad revision",
    commitVsCommit := fun _ _ => [], commitVsWorking := fun _ => [],
    iterCommits := fun _ _ _ _ => .ok [], blameChunks := fun _ => .ok [],
    tags := [], tagsErr := none, fmtDateTime := fun _ => "", fmtDate := fun _ => "" }

/-- The commit that last touched line 1 of the blamed file. -/
def blameCommitA : CommitData :=
  ⟨"c100000fff", "Alice", "alice@example.com", 0, "first", []⟩

/-- The commit that last touched line 2 of the blamed file. -/
def blameCommitB : CommitData :=
  ⟨"c200000fff", "Bob", "bob@example.com", 1, "second", []⟩

/-- The blame chunks of a two-line file whose lines were last touched by
two different commits. -/
def twoChunks : List (CommitData × List String) :=
  [(blameCommitA, ["alpha"]), (blameCommitB, ["beta"])]

/-- A repository whose blame of any file yields `twoChunks`. -/
def hvTwoChunks : HVRepo :=
  { valid := true, headValid := true, indexVsHead := [], indexVsWorking := [],
    indexVsEmptyTree := [], resolveCommit := fun _ => .error "bad revision",
    commitVsCommit := fun _ _ => [], commitVsWorking := fun _ => [],
    iterCommits := fun _ _ _ _ => .ok [], blameChunks := fun _ => .ok twoChunks,
    tags := [], tagsErr := none, fmtDateTime := fun _ => "",
    fmtDate := fun _ => "2024-01-01" }

/-- A filesystem holding a complete existing key pair. -/
def sshBoth : SSHState :=
  { privPath := "/root/.ssh/id_rsa", privContent := some "OLD PRIVATE",
    privMode := some 0o600, pubContent := some "ssh-rsa OLD old@example.com",
    pubMode := some 0o644, sshDirExists := true }

/-- A filesystem holding only the private key file. -/
def sshOnlyPriv : SSHState :=
  { privPath := "/root/.ssh/id_rsa", privContent := some "OLD PRIVATE",
    privMode := some 0o600, pubContent := none,
    pubMode := none, sshDirExists := true }

/-- A fresh key pair as the crypto library would serialize it. -/
def freshKey : GeneratedKey :=
  ⟨"NEW PRIVATE PEM", "ssh-rsa NEWKEY"⟩

/-! ## Supporting lemmas -/

/-- After updating a key, looking that key up yields the new value. -/
theorem dictGet_dictSet (es : List (String × CVal)) (k : String) (v : CVal) :
    dictGet (dictSet es k v) k = some v := by
  induction es with
  | nil => simp [dictSet, dictGet]
  | cons h t ih =>
    obtain ⟨a, b⟩ := h
    by_cases hak : (a == k) = true
    · simp [dictSet, hak, dictGet]
    · simp [dictSet, hak, dictGet, ih]

/-- When the assignment walk of `set` completes without raising, the lookup
walk over the same segments finds the assigned value. -/
theorem setWalk_getWalk : ∀ (keys : List String) (c v c2 : CVal),
    setWalk c keys v = (c2, none) → getWalk c2 keys CVal.null = v := by
  intro keys
  induction keys with
  | nil => intro c v c2 h; simp [setWalk] at h
  | cons k rest ih =>
    intro c v c2 h
    cases rest with
    | nil =>
      cases c with
      | dict es =>
        simp only [setWalk] at h
        obtain ⟨h1, _⟩ := Prod.mk.injEq .. ▸ h
        rw [← h1]
        simp [getWalk, dictGet_dictSet]
      | str s => simp [setWalk] at h
      | bool b => simp [setWalk] at h
      | int n => simp [setWalk] at h
      | null => simp [setWalk] at h
    | cons k2 rest2 =>
      cases c with
      | dict es =>
        simp only [setWalk] at h
        obtain ⟨h1, h2⟩ := Prod.mk.injEq .. ▸ h
        rw [← h1]
        simp only [getWalk, dictGet_dictSet]
        exact ih _ v _ (by rw [Prod.ext_iff]; exact ⟨rfl, h2⟩)
      | str s => simp [setWalk] at h
      | bool b => simp [setWalk] at h
      | int n => simp [setWalk] at h
      | null => simp [setWalk] at h

/-- When `set` returns its success pair, `get` on the same key returns the
value that was set: the round trip of the specification holds on every path
on which `set` does not raise. -/
theorem ConfigManager.get_after_set_ok (cm : ConfigManager) (k : String) (v : CVal)
    (cm2 : ConfigManager) (r : Bool × String)
    (h : ConfigManager.set cm k v = (cm2, .ok r)) :
    ConfigManager.get cm2 k CVal.null = v := by
  unfold ConfigManager.set at h
  rcases hw : setWalk cm.config (pySplitChar dotChar k) v with ⟨c2, e⟩
  rw [hw] at h
  cases e with
  | none =>
    simp only at h
    obtain ⟨h1, _⟩ := Prod.mk.injEq .. ▸ h
    unfold ConfigManager.get
    rw [← h1]
    exact setWalk_getWalk _ _ _ _ hw
  | some ex => simp at h

/-! ## Claims -/

/-- C1: the specification's propagation policy says every public operation
converts failures into a `(success, payload)` pair and never lets an
exception escape; in particular `ConfigManager.set` and
`ConfigManager.delete` on a dotted key whose intermediate segment holds a
non-mapping value.  The code violates this: from the default configuration,
`set("user.name.first", ...)` reaches the string stored at `user.name` and
raises `TypeError`, and `delete("preferences.verbose.x")` performs a
membership test on the boolean stored at `preferences.verbose` and raises
`TypeError`. -/
theorem C1_set_delete_raise :
    (ConfigManager.set cmDefault "user.name.first" (CVal.str "x")).2 =
      Except.error PyExc.typeError ∧
    (ConfigManager.delete cmDefault "preferences.verbose.x").2 =
      Except.error PyExc.typeError :=
  ⟨rfl, rfl⟩

/-- C3: the config round trip `set(k, v)` then `get(k) = v` cannot hold for
every dotted key: for `k = "user.name.x"` from the default configuration,
`set` raises `TypeError` (the intermediate segment `user.name` holds a
string), so the round trip never returns `v`.  The round trip does hold on
every non-raising path (`ConfigManager.get_after_set_ok`). -/
theorem C3_roundtrip_raises :
    setThenGet cmDefault "user.name.x" (CVal.str "v") =
      Except.error PyExc.typeError :=
  rfl

/-- C2: in a valid repository where the target branch exists, a merge base
with HEAD exists, and HEAD equals the target tip, `merge_branch` returns
success with "Already up to date" and leaves the state — in particular
every branch tip — unchanged. -/
theorem C2_merge_up_to_date (st : BMRepo) (name : String) (noff : Bool)
    (cm : Option String) (target : Branch)
    (hv : st.valid = true)
    (hf : st.branches.find? (fun b => b.name == name) = some target)
    (ha : st.activeBranchErr = none)
    (hbase : st.mergeBase st.headCommit target.commit ≠ [])
    (hhead : st.headCommit = target.commit) :
    BranchManager.merge_branch st name noff cm = (st, true, "Already up to date") := by
  unfold BranchManager.merge_branch
  rw [hv, hf, ha]
  simp only [Bool.not_true, Bool.false_eq_true, if_false]
  rw [List.isEmpty_eq_false.mpr hbase]
  simp [hhead]

/-- C2 witness: a concrete repository whose `feature` tip equals HEAD. -/
theorem C2_witness :
    BranchManager.merge_branch bmUpToDate "feature" false none =
      (bmUpToDate, true, "Already up to date") :=
  C2_merge_up_to_date bmUpToDate "feature" false none ⟨"feature", "aaaaaaa1111"⟩
    rfl rfl rfl (by decide) rfl

/-- C5: whenever the mode selection succeeds and the accumulated — and,
when a file filter is given, filtered — diff text is empty, `diff` returns
success with exactly the sentinel "No differences found". -/
theorem C5_empty_diff_sentinel (st : HVRepo) (c1 c2 : Option String)
    (cached : Bool) (fp : Option String) (items : List DiffItem)
    (hv : st.valid = true)
    (hit : computeItems st c1 c2 cached = .ok items)
    (hemp : applyFileFilter fp (renderItems items) = "") :
    HistoryViewer.diff st c1 c2 cached fp = (true, "No differences found") := by
  unfold HistoryViewer.diff
  rw [hv, hit]
  simp [hemp]

/-- C5 witness: a clean repository, `diff()` with no arguments. -/
theorem C5_witness :
    HistoryViewer.diff hvClean none none false none =
      (true, "No differences found") :=
  C5_empty_diff_sentinel hvClean none none false none [] rfl rfl rfl

/-- C4 counterexample: in a repository with no HEAD whose index stages one
file (so the index-vs-empty-tree diff is nonempty) and whose working tree
matches the index, `diff(cached=true)` reports "No differences found" —
it does not show the staged changes the claim promises. -/
theorem C4_cex_cached_no_head :
    HistoryViewer.diff hvNoHead none none true none = (true, "No differences found") ∧
    hvNoHead.indexVsEmptyTree ≠ [] ∧
    renderItems hvNoHead.indexVsEmptyTree ≠ "No differences found" :=
  ⟨rfl, List.cons_ne_nil _ _, by decide⟩

/-- C4 as amended: when `cached` is requested and HEAD does not exist, the
produced diff compares the index against the working tree — it is the same
comparison as the no-argument unstaged mode — not the index against the
empty tree. -/
theorem C4_cached_no_head_is_worktree (st : HVRepo) (fp : Option String)
    (h : st.headValid = false) :
    HistoryViewer.diff st none none true fp = HistoryViewer.diff st none none false fp := by
  have hc : computeItems st none none true = computeItems st none none false := by
    simp [computeItems, h, optTruthy]
  unfold HistoryViewer.diff
  rw [hc]

/-- C4 witness: the concrete no-HEAD repository. -/
theorem C4_witness :
    HistoryViewer.diff hvNoHead none none true none =
      HistoryViewer.diff hvNoHead none none false none :=
  C4_cached_no_head_is_worktree hvNoHead none rfl

/-- C6: when both key files exist, `generate_ssh_key` with
`overwrite=false` returns failure and the filesystem state — both files'
contents and modes — is exactly the state before the call. -/
theorem C6_no_overwrite_refusal (st : SSHState) (kg : GeneratedKey) (email : String)
    (hp : st.privContent.isSome = true) (hq : st.pubContent.isSome = true) :
    SSHKeyManager.generate_ssh_key st kg email false =
      (st, false, "SSH key already exists at " ++ st.privPath) := by
  unfold SSHKeyManager.generate_ssh_key SSHKeyManager.check_ssh_key_exists
  rw [hp, hq]
  rfl

/-- C6 witness: a concrete existing key pair. -/
theorem C6_witness :
    SSHKeyManager.generate_ssh_key sshBoth freshKey "a@b.com" false =
      (sshBoth, false, "SSH key already exists at /root/.ssh/id_rsa") :=
  C6_no_overwrite_refusal sshBoth freshKey "a@b.com" rfl rfl

/-- C8: in a valid repository, switching to a branch that does not exist
with `create=false` returns failure with the does-not-exist message and
returns the state unchanged: no checkout touches the working tree or the
current branch. -/
theorem C8_switch_nonexistent (st : BMRepo) (name : String)
    (hv : st.valid = true)
    (hne : st.branches.find? (fun b => b.name == name) = none) :
    BranchManager.switch_branch st name false =
      (st, false, "Branch \x27" ++ name ++ "\x27 does not exist. Use --create to create it") := by
  unfold BranchManager.switch_branch
  rw [hv, hne]
  rfl

/-- C8 witness: switching to the missing branch `nope`. -/
theorem C8_witness :
    BranchManager.switch_branch bmOnlyMain "nope" false =
      (bmOnlyMain, false, "Branch \x27nope\x27 does not exist. Use --create to create it") :=
  C8_switch_nonexistent bmOnlyMain "nope" rfl rfl

/-- C10: `generate_ssh_key` with `overwrite=false` refuses only when both
key files exist: whenever exactly one of the two exists, the call proceeds,
succeeds, and writes both files — overwriting the one that existed — with
the freshly generated material. -/
theorem C10_single_file_overwritten (st : SSHState) (kg : GeneratedKey) (email : String)
    (h : st.privContent.isSome ≠ st.pubContent.isSome) :
    (SSHKeyManager.generate_ssh_key st kg email false).2.1 = true ∧
    (SSHKeyManager.generate_ssh_key st kg email false).1.privContent =
      some kg.privatePem ∧
    (SSHKeyManager.generate_ssh_key st kg email false).1.pubContent =
      some (kg.publicSsh ++ " " ++ email) := by
  have hc : SSHKeyManager.check_ssh_key_exists st = false := by
    unfold SSHKeyManager.check_ssh_key_exists
    cases hp : st.privContent.isSome <;> cases hq : st.pubContent.isSome <;>
      simp_all
  unfold SSHKeyManager.generate_ssh_key
  rw [hc]
  exact ⟨rfl, rfl, rfl⟩

/-- C10 witness: only the private key file exists; generation proceeds and
rewrites it. -/
theorem C10_witness :
    (SSHKeyManager.generate_ssh_key sshOnlyPriv freshKey "a@b.com" false).2.1 = true ∧
    (SSHKeyManager.generate_ssh_key sshOnlyPriv freshKey "a@b.com" false).1.privContent =
      some "NEW PRIVATE PEM" ∧
    (SSHKeyManager.generate_ssh_key sshOnlyPriv freshKey "a@b.com" false).1.pubContent =
      some "ssh-rsa NEWKEY a@b.com" :=
  C10_single_file_overwritten sshOnlyPriv freshKey "a@b.com" (by decide)

/-- Whether a within-chunk index survives the blame range window (inclusive
bounds; a missing or zero bound is ignored). -/
def inBlameRange (ls le : Option Int) (i : Nat) : Bool :=
  (!optTruthyInt ls || decide (ls.getD 0 ≤ (i : Int))) &&
  (!optTruthyInt le || decide ((i : Int) ≤ le.getD 0))

/-- The amended per-chunk description of `blame`: the chunk's lines
enumerated from 1 within the chunk and filtered to the range window. -/
def specChunk (st : HVRepo) (c : CommitData) (ls le : Option Int)
    (lines : List String) : List BlameOut :=
  ((List.enumFrom 1 lines).filter (fun q => inBlameRange ls le q.1)).map
    (fun q => mkBlameEntry st c q.1 q.2)

/-- Once the enumeration index exceeds a truthy upper bound, the range
window rejects every remaining line. -/
theorem filter_past_range (ls le : Option Int) (hle : optTruthyInt le = true) :
    ∀ (lines : List String) (i : Nat), le.getD 0 < (i : Int) →
      (List.enumFrom i lines).filter (fun q => inBlameRange ls le q.1) = [] := by
  intro lines
  induction lines with
  | nil => intro i _; rfl
  | cons l rest ih =>
    intro i h
    simp only [List.enumFrom, List.filter_cons]
    have hf : inBlameRange ls le i = false := by
      unfold inBlameRange
      rw [hle]
      simp only [Bool.not_true, Bool.false_or]
      have : ¬ ((i : Int) ≤ le.getD 0) := by omega
      simp [this]
    rw [hf]
    simp only [Bool.false_eq_true, if_false]
    exact ih (i + 1) (by push_cast; omega)

/-- The chunk loop of `blame` equals the filtered enumeration starting at
the loop's current index: skipping below the window, breaking above it, and
emitting inside it coincide with the window filter. -/
theorem chunkGo_eq_spec (st : HVRepo) (c : CommitData) (ls le : Option Int) :
    ∀ (lines : List String) (i : Nat),
      chunkGo st c ls le i lines =
        ((List.enumFrom i lines).filter (fun q => inBlameRange ls le q.1)).map
          (fun q => mkBlameEntry st c q.1 q.2) := by
  intro lines
  induction lines with
  | nil => intro i; rfl
  | cons l rest ih =>
    intro i
    simp only [List.enumFrom, List.filter_cons, chunkGo]
    by_cases hskip : (optTruthyInt ls && decide ((i : Int) < ls.getD 0)) = true
    · have hf : inBlameRange ls le i = false := by
        unfold inBlameRange
        obtain ⟨h1, h2⟩ := Bool.and_eq_true .. |>.mp hskip
        rw [h1]
        have : ¬ (ls.getD 0 ≤ (i : Int)) := by
          have := of_decide_eq_true h2; omega
        simp [this]
      rw [if_pos hskip, hf]
      simp only [Bool.false_eq_true, if_false]
      exact ih (i + 1)
    · rw [if_neg hskip]
      by_cases hbrk : (optTruthyInt le && decide (le.getD 0 < (i : Int))) = true
      · have hf : inBlameRange ls le i = false := by
          unfold inBlameRange
          obtain ⟨h1, h2⟩ := Bool.and_eq_true .. |>.mp hbrk
          rw [h1]
          have : ¬ ((i : Int) ≤ le.getD 0) := by
            have := of_decide_eq_true h2; omega
          simp [this]
        rw [if_pos hbrk, hf]
        simp only [Bool.false_eq_true, if_false]
        obtain ⟨h1, h2⟩ := Bool.and_eq_true .. |>.mp hbrk
        rw [filter_past_range ls le h1 rest (i + 1)
          (by have := of_decide_eq_true h2; push_cast; omega)]
        rfl
      · have ht : inBlameRange ls le i = true := by
          unfold inBlameRange
          rcases Bool.and_eq_false_iff.mp (Bool.eq_false_iff.mpr hskip) with h | h
          · rcases Bool.and_eq_false_iff.mp (Bool.eq_false_iff.mpr hbrk) with g | g
            · simp [h, g]
            · have hg := of_decide_eq_false g
              simp [h, Bool.or_eq_true]
              omega
          · have hh := of_decide_eq_false h
            rcases Bool.and_eq_false_iff.mp (Bool.eq_false_iff.mpr hbrk) with g | g
            · simp [g, Bool.or_eq_true]
              omega
            · have hg := of_decide_eq_false g
              simp [Bool.or_eq_true]
              omega
        rw [if_neg hbrk, ht]
        simp only [if_true, List.map_cons]
        rw [ih (i + 1)]

/-- C7 counterexample: a two-line file whose lines were last touched by two
different commits.  The code numbers both lines 1 (the counter restarts on
every blame chunk), so the reported line numbers are not file positions;
and requesting the range 2..2 returns no line at all, though the file's
line 2 exists. -/
theorem C7_cex_blame_positions :
    HistoryViewer.blame hvTwoChunks "f.txt" (some 2) (some 2) = (true, []) ∧
    (twoChunks.map (fun p => p.2)).flatten = ["alpha", "beta"] ∧
    (HistoryViewer.blame hvTwoChunks "f.txt" none none).2 =
      [BlameOut.entry 1 "c100000" "Alice" "2024-01-01" "alpha",
       BlameOut.entry 1 "c200000" "Bob" "2024-01-01" "beta"] :=
  ⟨rfl, rfl, rfl⟩

/-- C7 as amended: for a file the engine can blame, `blame` reports, for
each chunk of consecutive lines attributed to one commit, the chunk's lines
numbered starting at 1 within the chunk (not within the file), each with
the short commit id, author and content; a given line range selects the
within-chunk numbers lying between `line_start` and `line_end` inclusive in
every chunk (a missing or zero bound is ignored). -/
theorem C7_blame_chunked (st : HVRepo) (file : String) (ls le : Option Int)
    (chunks : List (CommitData × List String))
    (hv : st.valid = true)
    (hb : st.blameChunks file = .ok chunks) :
    HistoryViewer.blame st file ls le =
      (true, (chunks.map (fun p => specChunk st p.1 ls le p.2)).flatten) := by
  unfold HistoryViewer.blame
  rw [hv, hb]
  simp only [Bool.not_true, Bool.false_eq_true, if_false]
  have : (fun p : CommitData × List String => chunkGo st p.1 ls le 1 p.2) =
      (fun p : CommitData × List String => specChunk st p.1 ls le p.2) := by
    funext p
    exact chunkGo_eq_spec st p.1 ls le p.2 1
  rw [this]

/-- C7 witness: the concrete two-chunk repository with no range given. -/
theorem C7_witness :
    HistoryViewer.blame hvTwoChunks "f.txt" none none =
      (true, (twoChunks.map (fun p => specChunk hvTwoChunks p.1 none none p.2)).flatten) :=
  C7_blame_chunked hvTwoChunks "f.txt" none none twoChunks rfl rfl

/-- Whether a log payload is a single-element list holding the error
descriptor. -/
def isSingleErrLog : List LogEntry → Bool
  | [LogEntry.err _] => true
  | _ => false

/-- Whether a blame payload is a single-element list holding the error
descriptor. -/
def isSingleErrBlame : List BlameOut → Bool
  | [BlameOut.err _] => true
  | _ => false

/-- Whether a tag payload is a single-element list holding the error
descriptor. -/
def isSingleErrTag : List TagEntry → Bool
  | [TagEntry.err _] => true
  | _ => false

/-- Whether a branch payload is a single-element list holding the error
descriptor. -/
def isSingleErrBranch : List BranchEntry → Bool
  | [BranchEntry.err _] => true
  | _ => false

/-- Whether a remote payload is a single-element list holding the error
descriptor. -/
def isSingleErrRemote : List RemoteEntry → Bool
  | [RemoteEntry.err _] => true
  | _ => false

/-- C9: every failure of a listing-style operation — `log`, `blame`,
`get_tags`, `list_branches`, `list_remotes` — for any cause, including an
invalid repository handle, carries its payload as a single-element list
containing an error descriptor, matching the operation's success shape. -/
theorem C9_listing_failure_shape :
    (∀ (st : HVRepo) (mc : Nat) (b a s : Option String),
      (HistoryViewer.log st mc b a s).1 = false →
      isSingleErrLog (HistoryViewer.log st mc b a s).2 = true) ∧
    (∀ (st : HVRepo) (f : String) (ls le : Option Int),
      (HistoryViewer.blame st f ls le).1 = false →
      isSingleErrBlame (HistoryViewer.blame st f ls le).2 = true) ∧
    (∀ (st : HVRepo),
      (HistoryViewer.get_tags st).1 = false →
      isSingleErrTag (HistoryViewer.get_tags st).2 = true) ∧
    (∀ (st : BMRepo) (ab : Bool),
      (BranchManager.list_branches st ab).1 = false →
      isSingleErrBranch (BranchManager.list_branches st ab).2 = true) ∧
    (∀ (st : GORepo),
      (GitOperations.list_remotes st).1 = false →
      isSingleErrRemote (GitOperations.list_remotes st).2 = true) := by
  refine ⟨?_, ?_, ?_, ?_, ?_⟩
  · intro st mc b a s h
    unfold HistoryViewer.log at h ⊢
    cases hval : st.valid with
    | false => simp [hval, isSingleErrLog]
    | true =>
      simp only [Bool.not_true, Bool.false_eq_true, if_false] at h ⊢
      cases hic : st.iterCommits mc (pyOpt b) (pyOpt a) (pyOpt s) with
      | ok cs => rw [hic] at h; simp [hval] at h
      | error e =>
        cases e with
        | cmd m => rfl
        | other m => rfl
  · intro st f ls le h
    unfold HistoryViewer.blame at h ⊢
    cases hval : st.valid with
    | false => simp [hval, isSingleErrBlame]
    | true =>
      simp only [Bool.not_true, Bool.false_eq_true, if_false] at h ⊢
      cases hic : st.blameChunks f with
      | ok cs => rw [hic] at h; simp [hval] at h
      | error e =>
        cases e with
        | cmd m => rfl
        | other m => rfl
  · intro st h
    unfold HistoryViewer.get_tags at h ⊢
    cases hval : st.valid with
    | false => simp [hval, isSingleErrTag]
    | true =>
      simp only [Bool.not_true, Bool.false_eq_true, if_false] at h ⊢
      cases hte : st.tagsErr with
      | none => rw [hte] at h; simp [hval] at h
      | some e => rfl
  · intro st ab h
    unfold BranchManager.list_branches at h ⊢
    cases hval : st.valid with
    | false => simp [hval, isSingleErrBranch]
    | true =>
      simp only [Bool.not_true, Bool.false_eq_true, if_false] at h ⊢
      cases hae : st.activeBranchErr with
      | none => rw [hae] at h; simp [hval] at h
      | some e => rfl
  · intro st h
    unfold GitOperations.list_remotes at h ⊢
    cases hval : st.valid with
    | false => simp [hval, isSingleErrRemote]
    | true =>
      simp only [Bool.not_true, Bool.false_eq_true, if_false] at h ⊢
      cases hre : st.remotesErr with
      | none => rw [hre] at h; simp [hval] at h
      | some e => rfl

/-- C9 witness: each of the five listing operations evaluated on a handle
whose path is not a repository. -/
theorem C9_witness :
    isSingleErrLog (HistoryViewer.log hvInvalid 10 none none none).2 = true ∧
    isSingleErrBlame (HistoryViewer.blame hvInvalid "a.txt" none none).2 = true ∧
    isSingleErrTag (HistoryViewer.get_tags hvInvalid).2 = true ∧
    isSingleErrBranch (BranchManager.list_branches bmInvalid false).2 = true ∧
    isSingleErrRemote (GitOperations.list_remotes goInvalid).2 = true :=
  ⟨C9_listing_failure_shape.1 hvInvalid 10 none none none rfl,
   C9_listing_failure_shape.2.1 hvInvalid "a.txt" none none rfl,
   C9_listing_failure_shape.2.2.1 hvInvalid rfl,
   C9_listing_failure_shape.2.2.2.1 bmInvalid false rfl,
   C9_listing_failure_shape.2.2.2.2 goInvalid rfl⟩
